import Mathlib

/-!
Verification of the retrieval core of `rag_system.py` (class `CrustDataRAG`).

The Python code is shallowly embedded as pure Lean functions.  External
dependencies are modelled as explicit parameters:

* the `tiktoken` tokenizer is a pair of functions `enc : String → List Nat`
  (`tokenizer.encode`) and `dec : List Nat → String` (`tokenizer.decode`);
* the remote embedding API is an oracle
  `embedBatch : List String → Except String (List (List ℚ))`
  (`error` = the call raised an exception);
* the remote chat-completion API is an oracle
  `chatResp : List Message → Except String String`;
* file reads are a list `files : List (Option String)` in path order
  (`none` = `open`/`read` raised, `some s` = the text of the file);
* the pickle cache read is `cacheRead : Option CacheRecord`
  (`none` = no cache file or `pickle.load` raised);
* embedding vectors are `List ℚ`; the floating-point similarity routine
  `sklearn.cosine_similarity` is abstracted as a parameter
  `sim : List ℚ → List ℚ → ℚ` applied to the query vector and each stored
  vector in order, which is exactly the shape of
  `cosine_similarity(query_vector, doc_vectors)[0]`.

Raised exceptions become `Except.error` / dedicated error values; code that
catches an exception is modelled by matching on the `error` case.
-/

namespace RagSystem

/-- In-memory state of a `CrustDataRAG` instance: the fields
`self.documents` and `self.embeddings_cache`. -/
structure RAGState where
  documents : List String
  embeddings_cache : List (List ℚ)
deriving DecidableEq, Repr

/-- The deserialized pickle artifact, a dict with keys "documents" and "embeddings";
a missing dict key is modelled by the corresponding empty list, matching
`cached_data.get(..., [])`. -/
structure CacheRecord where
  documents : List String
  embeddings : List (List ℚ)
deriving DecidableEq, Repr

/-- The two failures `load_documents` can raise:
`ValueError("No documents were successfully loaded")` and a re-raised
embedding exception (line 61, `raise`). -/
inductive LoadError where
  | noDocuments : LoadError
  | embeddingService : String → LoadError
deriving DecidableEq, Repr

/-- Everything observable about one `load_documents` call: the final
in-memory state, the record written to the cache file (`none` = no write was
attempted), and the normal/exceptional outcome. -/
structure LoadOutcome where
  state : RAGState
  cacheWritten : Option CacheRecord
  result : Except LoadError Unit
deriving Repr

/-- One `{"role": ..., "content": ...}` chat message. -/
structure Message where
  role : String
  content : String
deriving DecidableEq, Repr

/-! ### Python helpers -/

/-- Python `range(start, stop, step)` for a non-negative `step`, as the
arithmetic progression it denotes: `ceil((stop-start)/step)` terms
`start + k*step`.  `step = 0` raises `ValueError` in Python; callers of this
helper (`chunkWindows` via `chunkTokens`, `batchesOf`) only reach it with
`step > 0` or with the negative Python step, which gives an empty range just as
the `step = 0` guard here does for `max_tokens < overlap` (natural
subtraction turns the negative Python stride into `0`). -/
def pyRangeUp (start stop step : Nat) : List Nat :=
  if step = 0 then []
  else (List.range ((stop - start + step - 1) / step)).map (fun k => start + k * step)

/-- Python slice `a[-k:]`: the last `k` elements — except that `a[-0:]` is
`a[0:]`, the whole list.  This quirk matters at `top_k = 0` in `search`. -/
def pySliceNeg (k : Nat) (l : List α) : List α :=
  if k = 0 then l else l.drop (l.length - k)

/-- Python `str.strip()` (ASCII whitespace; the unicode cases do not affect
any claim). -/
def pyIsSpace (c : Char) : Bool :=
  c = ' ' || c = '\t' || c = '\n' || c = '\x0d' || c = '\x0b' || c = '\x0c'

/-- Python `str.strip()`. -/
def pyStrip (s : String) : String :=
  String.mk (((s.data.dropWhile pyIsSpace).reverse.dropWhile pyIsSpace).reverse)

/-- Python `str.lower()` (ASCII case folding; the patterns searched for are
ASCII). -/
def pyLower (s : String) : String :=
  String.mk (s.data.map Char.toLower)

/-- Bool test: `sub` is a prefix of `l`. -/
def listStartsWith : List Char → List Char → Bool
  | [], _ => true
  | _ :: _, [] => false
  | a :: as, b :: bs => a = b && listStartsWith as bs

/-- Bool test: `sub` occurs as a contiguous sublist of `l` — the Python test
`sub in l` on strings. -/
def listHasSub (sub : List Char) : List Char → Bool
  | [] => listStartsWith sub []
  | c :: t => listStartsWith sub (c :: t) || listHasSub sub t

/-- Python `sub in s` for strings. -/
def strHasSub (sub s : String) : Bool :=
  listHasSub sub.data s.data

/-! ### Tokenizer / chunker (`chunk_text`, lines 32–42) -/

/-- The token windows `tokens[i : i + max_tokens]` for
`i in range(0, len(tokens), max_tokens - overlap)`.  For
`max_tokens < overlap` the natural subtraction gives step `0`, which
`pyRangeUp` maps to the empty list — the same value that the Python
`range(0, n, negative)` produces. -/
def chunkWindows (tokens : List Nat) (max_tokens overlap : Nat) : List (List Nat) :=
  (pyRangeUp 0 tokens.length (max_tokens - overlap)).map
    (fun i => (tokens.drop i).take max_tokens)

/-- `chunk_text` at the token level.  `max_tokens = overlap` makes the Python
stride zero and `range` raises `ValueError`; every other configuration
returns the decoded windows. -/
def chunkTokens (tokens : List Nat) (max_tokens overlap : Nat) :
    Except String (List (List Nat)) :=
  if max_tokens = overlap then Except.error "range() arg 3 must not be zero"
  else Except.ok (chunkWindows tokens max_tokens overlap)

/-- `chunk_text(text, max_tokens, overlap)`: encode, window, decode each
window. -/
def chunkText (enc : String → List Nat) (dec : List Nat → String)
    (text : String) (max_tokens overlap : Nat) : Except String (List String) :=
  (chunkTokens (enc text) max_tokens overlap).map (fun ws => ws.map dec)

/-- `chunk_text` at its call site in `load_documents`, where the default
arguments `max_tokens = 512`, `overlap = 50` make the stride `462 > 0`, so
the `ValueError` branch is unreachable. -/
def chunkStrings (enc : String → List Nat) (dec : List Nat → String)
    (text : String) : List String :=
  (chunkWindows (enc text) 512 50).map dec

/-! ### Embedding batches (`_create_embeddings`, lines 44–61) -/

/-- The batches `documents[i : i + bs]` for `i in range(0, len(documents), bs)`. -/
def batchesOf (bs : Nat) (l : List α) : List (List α) :=
  (pyRangeUp 0 l.length bs).map (fun i => (l.drop i).take bs)

/-- The batch loop of `_create_embeddings`: extend the accumulator with each
vectors of each batch; the first failing batch stops the loop, leaving the partial
accumulator in `self.embeddings_cache` and re-raising the exception
(returned as `some` message). -/
def embedBatchesGo (embedBatch : List String → Except String (List (List ℚ))) :
    List (List String) → List (List ℚ) → List (List ℚ) × Option String
  | [], acc => (acc, none)
  | b :: rest, acc =>
    match embedBatch b with
    | Except.error e => (acc, some e)
    | Except.ok vs => embedBatchesGo embedBatch rest (acc ++ vs)

/-- `_create_embeddings`: reset the cache to `[]`, then run the batch loop
with batch size 100.  Result: (final `self.embeddings_cache`, raised
exception if any). -/
def createEmbeddings (embedBatch : List String → Except String (List (List ℚ)))
    (docs : List String) : List (List ℚ) × Option String :=
  embedBatchesGo embedBatch (batchesOf 100 docs) []

/-! ### `load_documents` (lines 63–106) -/

/-- The cache-consultation phase (lines 67–77): returns the state after the
phase and whether the cache-hit early `return` fired.  On a successful
`pickle.load` both fields are assigned before the non-emptiness test, so a
record failing the test still mutates the state (this is visible in the
claims about error paths). -/
def cachePhase (st : RAGState) (cacheRead : Option CacheRecord)
    (force_reload : Bool) : RAGState × Bool :=
  if force_reload then (st, false)
  else
    match cacheRead with
    | none => (st, false)
    | some cr =>
      if cr.documents ≠ [] ∧ cr.embeddings ≠ [] then
        (⟨cr.documents, cr.embeddings⟩, true)
      else
        (⟨cr.documents, cr.embeddings⟩, false)

/-- The chunks contributed by one file (lines 80–90): a failed read is
skipped, a file whose stripped text is empty (falsy) is skipped, otherwise
`chunk_text` at default arguments. -/
def fileChunks (enc : String → List Nat) (dec : List Nat → String)
    (f : Option String) : List String :=
  match f with
  | none => []
  | some s =>
    let text := pyStrip s
    if text = "" then [] else chunkStrings enc dec text

/-- The document-reading loop: `self.documents` after processing every path. -/
def collectDocs (enc : String → List Nat) (dec : List Nat → String)
    (files : List (Option String)) : List String :=
  (files.map (fileChunks enc dec)).flatten

/-- `load_documents(file_paths, force_reload)`. -/
def load_documents (enc : String → List Nat) (dec : List Nat → String)
    (st : RAGState) (cacheRead : Option CacheRecord)
    (files : List (Option String))
    (embedBatch : List String → Except String (List (List ℚ)))
    (force_reload : Bool) : LoadOutcome :=
  let phase := cachePhase st cacheRead force_reload
  if phase.2 then
    ⟨phase.1, none, Except.ok ()⟩
  else
    let docs := collectDocs enc dec files
    if docs = [] then
      ⟨⟨[], phase.1.embeddings_cache⟩, none, Except.error LoadError.noDocuments⟩
    else
      let r := createEmbeddings embedBatch docs
      match r.2 with
      | some e => ⟨⟨docs, r.1⟩, none, Except.error (LoadError.embeddingService e)⟩
      | none => ⟨⟨docs, r.1⟩, some ⟨docs, r.1⟩, Except.ok ()⟩

/-! ### `search` (lines 108–146) -/

/-- Total preorder used to model `np.argsort` on the similarity sub-array:
ascending value, ties by ascending position (the stable determinization of
`argsort`; the default `np.argsort` tie order is implementation-defined, the
spec itself assumes the stable one). -/
def idxLe (vals : List ℚ) (j1 j2 : Nat) : Prop :=
  vals.getD j1 0 < vals.getD j2 0 ∨ (vals.getD j1 0 = vals.getD j2 0 ∧ j1 ≤ j2)

instance (vals : List ℚ) : DecidableRel (idxLe vals) := fun j1 j2 => by
  unfold idxLe; exact inferInstance

instance (vals : List ℚ) : IsTotal Nat (idxLe vals) where
  total j1 j2 := by
    unfold idxLe
    rcases lt_trichotomy (vals.getD j1 0) (vals.getD j2 0) with h | h | h
    · exact Or.inl (Or.inl h)
    · rcases Nat.le_total j1 j2 with h2 | h2
      · exact Or.inl (Or.inr ⟨h, h2⟩)
      · exact Or.inr (Or.inr ⟨h.symm, h2⟩)
    · exact Or.inr (Or.inl h)

instance (vals : List ℚ) : IsTrans Nat (idxLe vals) where
  trans a b c hab hbc := by
    unfold idxLe at *
    rcases hab with h1 | ⟨e1, l1⟩
    · rcases hbc with h2 | ⟨e2, _⟩
      · exact Or.inl (h1.trans h2)
      · exact Or.inl (e2 ▸ h1)
    · rcases hbc with h2 | ⟨e2, l2⟩
      · exact Or.inl (e1 ▸ h2)
      · exact Or.inr ⟨e1.trans e2, l1.trans l2⟩

/-- `np.argsort(vals)` (stable determinization): the positions
`0, …, len(vals)-1` sorted by `idxLe`. -/
def argsortStable (vals : List ℚ) : List Nat :=
  List.insertionSort (idxLe vals) (List.range vals.length)

/-- Strict companion of `idxLe`: distinct sorted positions are strictly
ordered by (value, position) lexicographically. -/
def idxLt (vals : List ℚ) (j1 j2 : Nat) : Prop :=
  vals.getD j1 0 < vals.getD j2 0 ∨ (vals.getD j1 0 = vals.getD j2 0 ∧ j1 < j2)

/-- The relevance threshold `0.3` of line 132, written as the normalized
rational `3/10` so that it evaluates inside the kernel; the lemma
`simThreshold_eq_scientific` identifies it with the literal `0.3`. -/
def simThreshold : ℚ := ⟨3, 10, by decide, by decide⟩

/-- `np.where(similarities > threshold)[0]`: the passing positions in
ascending order. -/
def relevantIndices (sims : List ℚ) (threshold : ℚ) : List Nat :=
  (List.range sims.length).filter (fun i => threshold < sims.getD i 0)

/-- Lines 139–140:
`relevant_indices[np.argsort(similarities[relevant_indices])[-top_k:]][::-1]`
with `top_k` already replaced by `min(top_k, len(relevant_indices))`. -/
def searchTopIndices (sims : List ℚ) (top_k : Nat) : List Nat :=
  let relevant := relevantIndices sims simThreshold
  let k := min top_k relevant.length
  (((pySliceNeg k (argsortStable (relevant.map (fun i => sims.getD i 0)))).map
    (fun j => relevant.getD j 0))).reverse

/-- Lines 132–142 of `search`, given the similarity row. -/
def searchCore (docs : List String) (sims : List ℚ) (top_k : Nat) :
    List (String × ℚ) :=
  let relevant := relevantIndices sims simThreshold
  if relevant.length = 0 then []
  else (searchTopIndices sims top_k).map (fun i => (docs.getD i "", sims.getD i 0))

/-- `search(query, top_k)`.  `embedResp` is the embedding API response for
the query; a raised exception (`error`) is caught by the `except` and turned
into `[]`. -/
def search (sim : List ℚ → List ℚ → ℚ) (st : RAGState)
    (embedResp : Except String (List ℚ)) (top_k : Nat) : List (String × ℚ) :=
  if st.documents = [] ∨ st.embeddings_cache = [] then []
  else
    match embedResp with
    | Except.error _ => []
    | Except.ok q => searchCore st.documents (st.embeddings_cache.map (sim q)) top_k

/-! ### `answer_query` (lines 148–225) -/

/-- Lines 155–162, returned verbatim on a greeting query with no results. -/
def greetingTemplate : String :=
  "Hello! 👋 I\x27m Clara, CrustData\x27s AI Assistant. I\x27m here to help you with:\n\n• Understanding CrustData\x27s APIs and their features\n• Implementation guidance and code examples\n• Best practices and troubleshooting\n• Authentication and rate limiting questions\n\nHow can I assist you with CrustData\x27s APIs today?"

/-- Lines 165–172, returned on an identity question with no results. -/
def identityTemplate : String :=
  "I\x27m Clara, CrustData\x27s AI Assistant! 🤖 I specialize in helping developers like you with CrustData\x27s APIs. I can:\n\n• Guide you through API endpoints and features\n• Provide code examples and implementation tips\n• Help with authentication and error handling\n• Share best practices and optimization techniques\n\nWhat aspect of CrustData\x27s APIs would you like to learn more about?"

/-- Lines 174–181, the generic no-context fallback. -/
def fallbackTemplate : String :=
  "I don\x27t have specific information about that in my current documentation. However, I\x27d be happy to help you with:\n\n• API authentication and setup\n• Available endpoints and their usage\n• Rate limits and best practices\n• Error handling and troubleshooting\n\nWould you like to learn more about any of these topics? Alternatively, you can check our [official documentation](https://docs.crustdata.com) or contact our support team for more specific assistance."

/-- Line 225, the generic apology returned by the top-level `except`. -/
def apologyTemplate : String :=
  "I encountered an error while processing your request. Please try again or contact support if the issue persists."

/-- The system persona prompt (lines 187–203). -/
def systemPersona : String :=
  "You are Clara, CrustData\x27s friendly and knowledgeable AI Assistant. Your role is to help developers understand and use CrustData\x27s APIs effectively.\n\nKey traits and behavior guidelines:\n- Be welcoming and professional while maintaining a conversational tone\n- When greeting users for the first time, briefly introduce yourself and explain how you can help with CrustData\x27s APIs\n- For general questions about what you do, explain that you\x27re an AI assistant specializing in CrustData\x27s API documentation and support\n- Provide technically accurate information based on the available documentation\n- Use clear explanations with code examples when relevant\n- If information isn\x27t in the context but you know it\x27s API-related, suggest possible topics to explore\n- For completely off-topic questions, politely redirect to CrustData API topics\n- When information is not available in the documentation, suggest checking the official documentation or contacting support\n\nFormat your responses with:\n- Clear structure using paragraphs and bullet points when appropriate\n- Code examples in markdown format\n- Highlight important points or warnings\n- End with an invitation for follow-up questions when appropriate"

/-- Line 154: `any(greeting in query.lower() for greeting in [...])`. -/
def isGreetingQuery (q : String) : Bool :=
  ["hello", "hi", "hey", "greetings"].any (fun g => strHasSub g (pyLower q))

/-- Line 164: the two identity substring tests on `query.lower()`. -/
def isIdentityQuery (q : String) : Bool :=
  strHasSub "what do you do" (pyLower q) || strHasSub "who are you" (pyLower q)

/-- Lines 183–184: the numbered context block. -/
def contextBlock (docs : List (String × ℚ)) : String :=
  String.intercalate "\n" ((List.range docs.length).map
    (fun i => "Document " ++ toString (i + 1) ++ ":\n" ++ (docs.getD i ("", 0)).1 ++ "\n"))

/-- Lines 209–212: the final user-role message. -/
def userContent (query context : String) : String :=
  "Question about CrustData API: " ++ query ++ "\n\nRelevant documentation:\n" ++ context

/-- `answer_query(query, chat_history)`.  The embedding call is represented
by `embedResp` (consumed inside `search`), the chat-completion call by the
oracle `chatResp`; an `error` from the latter is caught by the top-level
`except` and becomes the apology string. -/
def answer_query (sim : List ℚ → List ℚ → ℚ) (st : RAGState)
    (embedResp : Except String (List ℚ))
    (chatResp : List Message → Except String String)
    (query : String) (chat_history : List Message) : String :=
  let relevant_docs := search sim st embedResp 3
  if relevant_docs = [] then
    if isGreetingQuery query then greetingTemplate
    else if isIdentityQuery query then identityTemplate
    else fallbackTemplate
  else
    let context := contextBlock relevant_docs
    let messages := [Message.mk "system" systemPersona] ++ pySliceNeg 5 chat_history
        ++ [Message.mk "user" (userContent query context)]
    match chatResp messages with
    | Except.ok out => out
    | Except.error _ => apologyTemplate

/-! ### Concrete instances used by witnesses and counterexamples -/

/-- A concrete character-level tokenizer for witnesses: one token per
character. -/
def charEnc (s : String) : List Nat := s.data.map Char.toNat

/-- Decoder matching `charEnc`. -/
def charDec (l : List Nat) : String := String.mk (l.map Char.ofNat)

/-- A constant similarity function, for concrete instantiations of the
abstracted `cosine_similarity`. -/
def simConst (c : ℚ) : List ℚ → List ℚ → ℚ := fun _ _ => c

/-! ### Helper lemmas -/

/-- The threshold constant is the literal `0.3` of line 132. -/
theorem simThreshold_eq_scientific : simThreshold = 0.3 := by
  rw [show simThreshold = Rat.divInt 3 10 from Rat.mk'_eq_divInt, Rat.divInt_eq_div]
  norm_num

/-- A raised query-embedding exception is caught by the `except` in `search`
(lines 144–146) and becomes the empty result. -/
theorem search_error_nil (sim : List ℚ → List ℚ → ℚ) (st : RAGState)
    (msg : String) (top_k : Nat) :
    search sim st (Except.error msg) top_k = [] := by
  unfold search
  split
  · rfl
  · rfl

/-- Elements of `List.range m`, mapped through stride-`bs` windows of `l`
and concatenated, give the first `m * bs` elements of `l`. -/
theorem range_windows_take {α : Type} (bs : Nat) :
    ∀ (m : Nat) (l : List α),
      ((List.range m).map (fun k => (l.drop (k * bs)).take bs)).flatten
        = l.take (m * bs) := by
  intro m
  induction m with
  | zero => intro l; simp
  | succ n ih =>
    intro l
    rw [List.range_succ, List.map_append, List.flatten_append]
    rw [ih l]
    simp only [List.map_cons, List.map_nil, List.flatten_cons, List.flatten_nil,
      List.append_nil]
    rw [← List.take_add]
    rw [Nat.succ_mul]

/-- `n ≤ ceil(n / bs) * bs`. -/
theorem length_le_ceil_mul (n bs : Nat) (hbs : 0 < bs) :
    n ≤ ((n + bs - 1) / bs) * bs := by
  rcases Nat.eq_zero_or_pos n with hn | hn
  · simp [hn]
  · have h3 : n + bs - 1 < ((n + bs - 1) / bs + 1) * bs :=
      (Nat.div_lt_iff_lt_mul hbs).mp (Nat.lt_succ_self _)
    rw [Nat.add_mul, Nat.one_mul] at h3
    omega

/-- The batches produced by `batchesOf` concatenate back to the input. -/
theorem batchesOf_flatten {α : Type} (bs : Nat) (hbs : 0 < bs) (l : List α) :
    (batchesOf bs l).flatten = l := by
  unfold batchesOf pyRangeUp
  rw [if_neg (Nat.pos_iff_ne_zero.mp hbs), List.map_map]
  have hcomp : ((fun i => (l.drop i).take bs) ∘ fun k => 0 + k * bs)
      = fun k => (l.drop (k * bs)).take bs := by
    funext k
    simp
  rw [hcomp, Nat.sub_zero, range_windows_take]
  exact List.take_of_length_le (length_le_ceil_mul l.length bs hbs)

/-- If every batch succeeds and the service returns one vector per input,
the batch loop accumulates exactly one vector per document. -/
theorem embedBatchesGo_length (f : List String → Except String (List (List ℚ)))
    (hOracle : ∀ b r, f b = Except.ok r → r.length = b.length) :
    ∀ (bs : List (List String)) (acc : List (List ℚ)),
      (embedBatchesGo f bs acc).2 = none →
      (embedBatchesGo f bs acc).1.length
        = acc.length + (bs.map List.length).sum := by
  intro bs
  induction bs with
  | nil =>
    intro acc _
    simp [embedBatchesGo]
  | cons b rest ih =>
    intro acc hnone
    unfold embedBatchesGo at hnone ⊢
    cases hf : f b with
    | error e =>
      rw [hf] at hnone
      simp at hnone
    | ok vs =>
      rw [hf] at hnone
      replace hnone : (embedBatchesGo f rest (acc ++ vs)).2 = none := hnone
      show (embedBatchesGo f rest (acc ++ vs)).1.length
        = acc.length + (List.map List.length (b :: rest)).sum
      have hlen := ih (acc ++ vs) hnone
      rw [hlen, List.length_append, hOracle b vs hf]
      simp only [List.map_cons, List.sum_cons]
      omega

/-- `_create_embeddings` on success: one embedding per document (given the
one-vector-per-input service contract of the external interface). -/
theorem createEmbeddings_length (f : List String → Except String (List (List ℚ)))
    (docs : List String)
    (hOracle : ∀ b r, f b = Except.ok r → r.length = b.length)
    (hok : (createEmbeddings f docs).2 = none) :
    (createEmbeddings f docs).1.length = docs.length := by
  have h := embedBatchesGo_length f hOracle (batchesOf 100 docs) [] hok
  have hj : (batchesOf 100 docs).flatten = docs := batchesOf_flatten 100 (by decide) docs
  have hlen := congrArg List.length hj
  rw [List.length_flatten] at hlen
  rw [createEmbeddings] at *
  rw [h, ← hlen]
  simp

/-- If every file is unreadable or strips to the empty string, the document
loop collects nothing. -/
theorem collectDocs_nil (enc : String → List Nat) (dec : List Nat → String)
    (files : List (Option String))
    (h : ∀ f ∈ files, f = none ∨ ∃ s, f = some s ∧ pyStrip s = "") :
    collectDocs enc dec files = [] := by
  induction files with
  | nil => rfl
  | cons f rest ih =>
    have hf := h f (List.mem_cons_self f rest)
    have hrest := ih (fun g hg => h g (List.mem_cons_of_mem f hg))
    have hfc : fileChunks enc dec f = [] := by
      rcases hf with hf | ⟨s, hf, hs⟩
      · rw [hf]
        rfl
      · rw [hf]
        simp [fileChunks, hs]
    rw [collectDocs] at hrest ⊢
    simp only [List.map_cons, List.flatten_cons, hfc, List.nil_append]
    exact hrest

/-! ### C7: termination of `chunk_text` on non-positive stride -/

/-- C7: for every configuration with `overlap >= max_tokens`, `chunk_text`
does not iterate at all, let alone infinitely: with `overlap = max_tokens`
the Python `range` raises `ValueError` (a configuration error), and with
`overlap > max_tokens` the negative-stride `range` is empty, so the result
is `[]`.  Totality of `chunkTokens` itself is termination. -/
theorem chunk_text_nonpositive_stride (tokens : List Nat)
    (max_tokens overlap : Nat) (h : max_tokens ≤ overlap) :
    chunkTokens tokens max_tokens overlap
        = Except.error "range() arg 3 must not be zero" ∨
    chunkTokens tokens max_tokens overlap = Except.ok [] := by
  rcases Nat.eq_or_lt_of_le h with heq | hlt
  · left
    simp [chunkTokens, heq]
  · right
    have hz : max_tokens - overlap = 0 := Nat.sub_eq_zero_of_le h
    have hne : max_tokens ≠ overlap := Nat.ne_of_lt hlt
    simp [chunkTokens, chunkWindows, pyRangeUp, hz, hne]

/-- Witness for C7 at `max_tokens = overlap = 5`. -/
theorem chunk_text_nonpositive_stride_witness :
    chunkTokens [1, 2, 3] 5 5 = Except.error "range() arg 3 must not be zero" ∨
    chunkTokens [1, 2, 3] 5 5 = Except.ok [] :=
  chunk_text_nonpositive_stride [1, 2, 3] 5 5 (by decide)

/-! ### C10: `search` never propagates a failure -/

/-- C10: a failure of the remote embedding call inside `search` (the only
fallible step of the embedded `search`) is absorbed by the `except` clause:
the result is `[]` for every state, similarity function and `top_k`, and
`search` is a total function — no exception reaches the caller. -/
theorem search_embed_error_empty (sim : List ℚ → List ℚ → ℚ) (st : RAGState)
    (msg : String) (top_k : Nat) :
    search sim st (Except.error msg) top_k = [] :=
  search_error_nil sim st msg top_k

/-! ### C9: greeting queries with empty search results -/

/-- C9: whenever `search` returns the empty sequence and the query contains
one of the greeting substrings case-insensitively, `answer_query` returns
the fixed self-introduction template, for every history. -/
theorem answer_query_greeting (sim : List ℚ → List ℚ → ℚ) (st : RAGState)
    (embedResp : Except String (List ℚ))
    (chatResp : List Message → Except String String)
    (query : String) (hist : List Message)
    (hsearch : search sim st embedResp 3 = [])
    (hgreet : isGreetingQuery query = true) :
    answer_query sim st embedResp chatResp query hist = greetingTemplate := by
  simp [answer_query, hsearch, hgreet]

/-- Witness for C9: query "hello there" on an empty store, with a non-empty
history. -/
theorem answer_query_greeting_witness :
    answer_query (simConst 1) ⟨[], []⟩ (Except.ok [1])
      (fun _ => Except.error "x") "hello there"
      [Message.mk "user" "prior turn"] = greetingTemplate :=
  answer_query_greeting _ _ _ _ _ _ (by rfl) (by decide)

/-! ### Search ordering machinery -/

/-- The argsort is a permutation of the positions. -/
theorem argsortStable_perm (vals : List ℚ) :
    (argsortStable vals).Perm (List.range vals.length) :=
  List.perm_insertionSort _ _

/-- Every argsort entry is a valid position. -/
theorem argsortStable_mem {vals : List ℚ} {j : Nat}
    (h : j ∈ argsortStable vals) : j < vals.length :=
  List.mem_range.mp ((argsortStable_perm vals).mem_iff.mp h)

/-- The argsort output is strictly increasing in (value, position). -/
theorem argsortStable_pairwise (vals : List ℚ) :
    List.Pairwise (idxLt vals) (argsortStable vals) := by
  have hs : List.Pairwise (idxLe vals) (argsortStable vals) :=
    List.sorted_insertionSort (idxLe vals) (List.range vals.length)
  have hnd : (argsortStable vals).Nodup :=
    (argsortStable_perm vals).symm.nodup (List.nodup_range vals.length)
  have hcomb := hs.and hnd
  refine hcomb.imp ?_
  intro a b hab
  rcases hab with ⟨hlt | ⟨he, hl⟩, hne⟩
  · exact Or.inl hlt
  · exact Or.inr ⟨he, lt_of_le_of_ne hl hne⟩

/-- The passing positions are strictly increasing. -/
theorem relevantIndices_sorted (sims : List ℚ) (t : ℚ) :
    List.Pairwise (· < ·) (relevantIndices sims t) :=
  (List.pairwise_lt_range sims.length).filter _

/-- Membership in the passing positions: valid index, above threshold. -/
theorem relevantIndices_mem {sims : List ℚ} {t : ℚ} {i : Nat}
    (h : i ∈ relevantIndices sims t) : i < sims.length ∧ t < sims.getD i 0 := by
  unfold relevantIndices at h
  rw [List.mem_filter, List.mem_range] at h
  exact ⟨h.1, by simpa using h.2⟩

/-- `getD` is monotone along a strictly increasing list. -/
theorem pairwise_lt_getD {l : List Nat} (hp : List.Pairwise (· < ·) l)
    {j1 j2 : Nat} (h1 : j1 < l.length) (h2 : j2 < l.length) (hj : j1 < j2) :
    l.getD j1 0 < l.getD j2 0 := by
  rw [List.getD_eq_getElem l 0 h1, List.getD_eq_getElem l 0 h2]
  exact List.pairwise_iff_getElem.mp hp j1 j2 h1 h2 hj

/-- The negative-slice is a sublist. -/
theorem pySliceNeg_sublist {α : Type} (k : Nat) (l : List α) :
    (pySliceNeg k l).Sublist l := by
  unfold pySliceNeg
  split
  · exact List.Sublist.refl l
  · exact List.drop_sublist _ _

/-- For `k ≥ 1` the negative-slice keeps at most `k` elements. -/
theorem pySliceNeg_length_le {α : Type} (k : Nat) (hk : 1 ≤ k) (l : List α) :
    (pySliceNeg k l).length ≤ k := by
  unfold pySliceNeg
  rw [if_neg (by omega), List.length_drop]
  omega

/-- Reading the mapped value list at a position gives the similarity of the
underlying index. -/
theorem vals_getD_map (relevant : List Nat) (sims : List ℚ) (j : Nat)
    (hj : j < relevant.length) :
    (relevant.map (fun i => sims.getD i 0)).getD j 0
      = sims.getD (relevant.getD j 0) 0 := by
  rw [List.getD_eq_getElem _ _ (by simpa using hj), List.getElem_map,
    List.getD_eq_getElem _ _ hj]

/-- The selected index list is strictly decreasing in (similarity, index):
descending similarity, ties broken by descending original index. -/
theorem searchTopIndices_pairwise (sims : List ℚ) (top_k : Nat) :
    List.Pairwise (fun i1 i2 => sims.getD i2 0 < sims.getD i1 0 ∨
        (sims.getD i1 0 = sims.getD i2 0 ∧ i2 < i1))
      (searchTopIndices sims top_k) := by
  unfold searchTopIndices
  rw [List.pairwise_reverse, List.pairwise_map]
  have hpw := List.Pairwise.sublist
    (pySliceNeg_sublist (min top_k (relevantIndices sims simThreshold).length)
      (argsortStable
        ((relevantIndices sims simThreshold).map (fun i => sims.getD i 0))))
    (argsortStable_pairwise
      ((relevantIndices sims simThreshold).map (fun i => sims.getD i 0)))
  refine List.Pairwise.imp_of_mem ?_ hpw
  intro a b ha hb hab
  have ha2 : a < (relevantIndices sims simThreshold).length := by
    have := argsortStable_mem ((pySliceNeg_sublist _ _).subset ha)
    simpa using this
  have hb2 : b < (relevantIndices sims simThreshold).length := by
    have := argsortStable_mem ((pySliceNeg_sublist _ _).subset hb)
    simpa using this
  rcases hab with hlt | ⟨he, hl⟩
  · left
    rw [← vals_getD_map _ sims a ha2, ← vals_getD_map _ sims b hb2]
    exact hlt
  · right
    constructor
    · rw [← vals_getD_map _ sims a ha2, ← vals_getD_map _ sims b hb2]
      exact he.symm
    · exact pairwise_lt_getD (relevantIndices_sorted sims simThreshold) ha2 hb2 hl

/-- Every selected index passed the relevance filter. -/
theorem searchTopIndices_subset_relevant {sims : List ℚ} {top_k i : Nat}
    (h : i ∈ searchTopIndices sims top_k) :
    i ∈ relevantIndices sims simThreshold := by
  unfold searchTopIndices at h
  rw [List.mem_reverse, List.mem_map] at h
  obtain ⟨j, hj, rfl⟩ := h
  have hj2 : j < (relevantIndices sims simThreshold).length := by
    have := argsortStable_mem ((pySliceNeg_sublist _ _).subset hj)
    simpa using this
  rw [List.getD_eq_getElem _ _ hj2]
  exact List.getElem_mem hj2

/-- At most `top_k` indices are selected, for `top_k ≥ 1`. -/
theorem searchTopIndices_length_le (sims : List ℚ) (top_k : Nat)
    (hk : 1 ≤ top_k) :
    (searchTopIndices sims top_k).length ≤ top_k := by
  unfold searchTopIndices
  rw [List.length_reverse, List.length_map]
  rcases Nat.eq_zero_or_pos (relevantIndices sims simThreshold).length with hz | hp
  · have hnil : relevantIndices sims simThreshold = [] := List.length_eq_zero.mp hz
    rw [hnil]
    simp [argsortStable, pySliceNeg]
  · have h1 : 1 ≤ min top_k (relevantIndices sims simThreshold).length := by omega
    exact le_trans (pySliceNeg_length_le _ h1 _) (Nat.min_le_left _ _)

/-- Every result of `searchCore` scores above the threshold. -/
theorem searchCore_mem_threshold {docs : List String} {sims : List ℚ}
    {top_k : Nat} {p : String × ℚ} (hp : p ∈ searchCore docs sims top_k) :
    simThreshold < p.2 := by
  simp only [searchCore] at hp
  split at hp
  · exact absurd hp (List.not_mem_nil p)
  · rw [List.mem_map] at hp
    obtain ⟨i, hi, rfl⟩ := hp
    exact (relevantIndices_mem (searchTopIndices_subset_relevant hi)).2

/-! ### C5: ordering of `search` results -/

/-- C5 (amended): `search` results are sorted by non-increasing similarity
score; among results with equal scores the one with the LARGER original
chunk index comes first — the ascending argsort suffix is reversed, so the
stable tie order is inverted (the claim states the opposite tie order; see
the counterexample). -/
theorem search_sorted_desc (sim : List ℚ → List ℚ → ℚ) (st : RAGState)
    (q : List ℚ) (top_k : Nat) :
    List.Pairwise (fun p r => r.2 ≤ p.2) (search sim st (Except.ok q) top_k) ∧
    List.Pairwise (fun i1 i2 =>
        (st.embeddings_cache.map (sim q)).getD i2 0
          < (st.embeddings_cache.map (sim q)).getD i1 0 ∨
        ((st.embeddings_cache.map (sim q)).getD i1 0
          = (st.embeddings_cache.map (sim q)).getD i2 0 ∧ i2 < i1))
      (searchTopIndices (st.embeddings_cache.map (sim q)) top_k) := by
  constructor
  · unfold search
    split
    · exact List.Pairwise.nil
    · simp only [searchCore]
      split
      · exact List.Pairwise.nil
      · rw [List.pairwise_map]
        refine (searchTopIndices_pairwise _ _).imp ?_
        intro i1 i2 h
        rcases h with h | ⟨he, _⟩
        · exact le_of_lt h
        · exact le_of_eq he.symm
  · exact searchTopIndices_pairwise _ _

/-- Counterexample for C5 as stated: two chunks with equal similarity 1.
The selected index list is `[1, 0]` — the larger original index first — and
the search output lists document "b" (index 1) before "a" (index 0),
whereas the claim requires the smaller index first. -/
theorem search_tie_order_cex :
    searchTopIndices [(1 : ℚ), 1] 3 = [1, 0] ∧
    search (simConst 1) ⟨["a", "b"], [[1], [1]]⟩ (Except.ok []) 3
      = [("b", 1), ("a", 1)] ∧
    searchTopIndices [(1 : ℚ), 1] 3 ≠ [0, 1] := by
  refine ⟨by decide, by decide, by decide⟩

/-! ### C6: result count and threshold of `search` -/

/-- C6 (amended): for every query, `search` with `top_k ≥ 1` returns at most
`top_k` results, every returned score is strictly greater than 0.3, and if
no stored embedding scores above 0.3 the result is the empty sequence.  The
restriction to `top_k ≥ 1` is forced: at `top_k = 0` the Python slice
`[-0:]` keeps ALL passing results (see the counterexample). -/
theorem search_topk_threshold (sim : List ℚ → List ℚ → ℚ) (st : RAGState)
    (q : List ℚ) (top_k : Nat) :
    (1 ≤ top_k → (search sim st (Except.ok q) top_k).length ≤ top_k) ∧
    (∀ p ∈ search sim st (Except.ok q) top_k, (0.3 : ℚ) < p.2) ∧
    ((∀ v ∈ st.embeddings_cache, sim q v ≤ (0.3 : ℚ)) →
      search sim st (Except.ok q) top_k = []) := by
  refine ⟨?_, ?_, ?_⟩
  · intro hk
    unfold search
    split
    · simp
    · simp only [searchCore]
      split
      · simp
      · rw [List.length_map]
        exact searchTopIndices_length_le _ _ hk
  · intro p hp
    unfold search at hp
    split at hp
    · exact absurd hp (List.not_mem_nil p)
    · rw [← simThreshold_eq_scientific]
      exact searchCore_mem_threshold hp
  · intro hall
    unfold search
    split
    · rfl
    · have hrel : relevantIndices (st.embeddings_cache.map (sim q))
          simThreshold = [] := by
        unfold relevantIndices
        rw [List.filter_eq_nil_iff]
        intro i hi2
        rw [List.mem_range] at hi2
        simp only [decide_eq_true_eq]
        have hv : (st.embeddings_cache.map (sim q)).getD i 0
            ∈ st.embeddings_cache.map (sim q) := by
          rw [List.getD_eq_getElem _ _ hi2]
          exact List.getElem_mem hi2
        rw [List.mem_map] at hv
        obtain ⟨v, hv2, heq⟩ := hv
        rw [← heq, simThreshold_eq_scientific]
        exact not_lt.mpr (hall v hv2)
      simp [searchCore, hrel]

/-- Witness for C6: a single stored embedding; with similarity 1 the single
result respects `top_k = 1` and scores above 0.3, with similarity 0 nothing
is returned. -/
theorem search_topk_threshold_witness :
    (search (simConst 1) ⟨["a"], [[1]]⟩ (Except.ok [1]) 1).length ≤ 1 ∧
    (∀ p ∈ search (simConst 1) ⟨["a"], [[1]]⟩ (Except.ok [1]) 1,
      (0.3 : ℚ) < p.2) ∧
    search (simConst 0) ⟨["a"], [[1]]⟩ (Except.ok [1]) 1 = [] := by
  refine ⟨(search_topk_threshold (simConst 1) ⟨["a"], [[1]]⟩ [1] 1).1 (by decide),
    (search_topk_threshold (simConst 1) ⟨["a"], [[1]]⟩ [1] 1).2.1,
    (search_topk_threshold (simConst 0) ⟨["a"], [[1]]⟩ [1] 1).2.2 ?_⟩
  intro v hv
  rw [← simThreshold_eq_scientific]
  show (0 : ℚ) ≤ simThreshold
  decide

/-- Counterexample for C6 as stated: at `top_k = 0` the slice `[-0:]` keeps
everything, so `search` returns one result — more than `top_k`. -/
theorem search_topk_zero_cex :
    search (simConst 1) ⟨["a"], [[1]]⟩ (Except.ok [1]) 0 = [("a", 1)] ∧
    ¬ (search (simConst 1) ⟨["a"], [[1]]⟩ (Except.ok [1]) 0).length ≤ 0 := by
  refine ⟨by decide, by decide⟩

/-! ### C1: single-chunk inputs of `chunk_text` -/

/-- C1 (amended): a text whose token sequence is non-empty and no longer
than the stride `max_tokens - overlap` is returned as exactly one chunk,
the decoding of the full token sequence.  The claim as stated — with the
bound `max_tokens` instead of the stride — fails: a token sequence of
length in `(max_tokens - overlap, max_tokens]` produces a second,
overlap-only chunk (see the counterexample), and an empty token sequence
produces zero chunks. -/
theorem chunk_text_single_chunk (enc : String → List Nat)
    (dec : List Nat → String) (text : String) (max_tokens overlap : Nat)
    (hov : overlap < max_tokens)
    (hpos : 0 < (enc text).length)
    (hlen : (enc text).length ≤ max_tokens - overlap) :
    chunkText enc dec text max_tokens overlap = Except.ok [dec (enc text)] := by
  have hne : max_tokens ≠ overlap := Nat.ne_of_gt hov
  have hs : max_tokens - overlap ≠ 0 := by omega
  have hm : ((enc text).length - 0 + (max_tokens - overlap) - 1)
      / (max_tokens - overlap) = 1 := by
    rw [Nat.sub_zero]
    apply Nat.div_eq_of_lt_le
    · omega
    · omega
  have hr : List.range 1 = [0] := rfl
  simp only [chunkText, chunkTokens, if_neg hne, chunkWindows, pyRangeUp,
    if_neg hs, hm, hr, List.map_cons, List.map_nil, Nat.zero_mul,
    Nat.add_zero, List.drop_zero, Except.map]
  rw [List.take_of_length_le (le_trans hlen (Nat.sub_le max_tokens overlap))]

/-- Witness for C1: a two-character text at the default configuration. -/
theorem chunk_text_single_chunk_witness :
    chunkText charEnc charDec "ab" 512 50 = Except.ok [charDec (charEnc "ab")] :=
  chunk_text_single_chunk charEnc charDec "ab" 512 50 (by decide) (by decide)
    (by decide)

set_option maxRecDepth 100000 in
/-- Counterexample for C1 as stated: a text of 463 tokens — within the
default `max_tokens = 512` — is split into two chunks, because the window
start `462 = max_tokens - overlap` is still below 463. -/
theorem chunk_text_small_input_cex :
    (charEnc (String.mk (List.replicate 463 'a'))).length ≤ 512 ∧
    (chunkText charEnc charDec (String.mk (List.replicate 463 'a'))
        512 50).toOption.map List.length = some 2 ∧
    (2 : Nat) ≠ 1 := by
  refine ⟨by decide, by decide, by decide⟩

/-! ### C3: chunk/embedding alignment after `load_documents` -/

/-- C3 (amended): on the fresh-embedding path (no cache hit), a successful
`load_documents` leaves equally many chunks and embeddings, provided the
embedding service returns one vector per input (the order-preserving
contract of the external interface).  On the cache-hit path the code
performs no length validation, only non-emptiness checks, so there the
invariant holds only if the cached record itself is aligned — see the
counterexample. -/
theorem load_documents_fresh_aligned (enc : String → List Nat)
    (dec : List Nat → String) (st : RAGState) (cacheRead : Option CacheRecord)
    (files : List (Option String))
    (embedBatch : List String → Except String (List (List ℚ)))
    (force_reload : Bool)
    (hOracle : ∀ b r, embedBatch b = Except.ok r → r.length = b.length)
    (hNoHit : (cachePhase st cacheRead force_reload).2 = false)
    (hOk : (load_documents enc dec st cacheRead files embedBatch
        force_reload).result = Except.ok ()) :
    (load_documents enc dec st cacheRead files embedBatch
        force_reload).state.documents.length
      = (load_documents enc dec st cacheRead files embedBatch
        force_reload).state.embeddings_cache.length := by
  by_cases hd : collectDocs enc dec files = []
  · exfalso
    simp [load_documents, hNoHit, hd] at hOk
  · cases hc : (createEmbeddings embedBatch (collectDocs enc dec files)).2 with
    | some e =>
      exfalso
      simp [load_documents, hNoHit, hd, hc] at hOk
    | none =>
      simp only [load_documents, hNoHit, Bool.false_eq_true, if_false, hd,
        if_neg hd, hc]
      exact (createEmbeddings_length embedBatch _ hOracle hc).symm

/-- Witness for C3: fresh load of one readable file against a
one-vector-per-string service. -/
theorem load_documents_fresh_aligned_witness :
    (load_documents charEnc charDec ⟨[], []⟩ none [some "ab"]
        (fun b => Except.ok (b.map (fun _ => [(1 : ℚ)])))
        false).state.documents.length
      = (load_documents charEnc charDec ⟨[], []⟩ none [some "ab"]
        (fun b => Except.ok (b.map (fun _ => [(1 : ℚ)])))
        false).state.embeddings_cache.length := by
  refine load_documents_fresh_aligned charEnc charDec ⟨[], []⟩ none [some "ab"]
    (fun b => Except.ok (b.map (fun _ => [(1 : ℚ)]))) false ?_ rfl rfl
  intro b r h
  injection h with h1
  rw [← h1]
  simp

/-- Counterexample for C3 as stated: a readable cache artifact with two
documents but a single embedding is accepted by the cache-hit path (the code
checks only non-emptiness, not equal length), so `load_documents` returns
successfully with misaligned state. -/
theorem load_documents_cache_mismatch_cex :
    (load_documents charEnc charDec ⟨[], []⟩ (some ⟨["a", "b"], [[1]]⟩) []
        (fun _ => Except.error "unused") false).result = Except.ok () ∧
    (load_documents charEnc charDec ⟨[], []⟩ (some ⟨["a", "b"], [[1]]⟩) []
        (fun _ => Except.error "unused") false).state.documents.length = 2 ∧
    (load_documents charEnc charDec ⟨[], []⟩ (some ⟨["a", "b"], [[1]]⟩) []
        (fun _ => Except.error "unused") false).state.embeddings_cache.length
      = 1 := by
  exact ⟨rfl, rfl, rfl⟩

/-! ### C4: all inputs unusable -/

/-- C4 (amended): when no cache hit occurs and every file is unreadable or
strips to empty, `load_documents` raises the no-documents error, never
consults the embedding oracle (the outcome is identical for every oracle),
and leaves the chunk list empty; the embedding list, however, is not
cleared — it keeps whatever value the cache-consultation phase left there
(the empty list only when the instance was fresh and no readable cache
record was present). -/
theorem load_documents_no_docs (enc : String → List Nat)
    (dec : List Nat → String) (st : RAGState) (cacheRead : Option CacheRecord)
    (files : List (Option String))
    (embedBatch : List String → Except String (List (List ℚ)))
    (force_reload : Bool)
    (hNoHit : (cachePhase st cacheRead force_reload).2 = false)
    (hFiles : ∀ f ∈ files, f = none ∨ ∃ s, f = some s ∧ pyStrip s = "") :
    (load_documents enc dec st cacheRead files embedBatch force_reload).result
        = Except.error LoadError.noDocuments ∧
    (load_documents enc dec st cacheRead files embedBatch
        force_reload).state.documents = [] ∧
    (load_documents enc dec st cacheRead files embedBatch
        force_reload).state.embeddings_cache
      = (cachePhase st cacheRead force_reload).1.embeddings_cache ∧
    ∀ embedBatch2,
      load_documents enc dec st cacheRead files embedBatch force_reload
        = load_documents enc dec st cacheRead files embedBatch2 force_reload := by
  have hdocs := collectDocs_nil enc dec files hFiles
  refine ⟨?_, ?_, ?_, ?_⟩ <;> simp [load_documents, hNoHit, hdocs]

/-- Witness for C4: a nonexistent path and a whitespace-only file, fresh
instance, no cache. -/
theorem load_documents_no_docs_witness :
    (load_documents charEnc charDec ⟨[], []⟩ none [none, some "  "]
        (fun _ => Except.ok []) false).result
      = Except.error LoadError.noDocuments ∧
    (load_documents charEnc charDec ⟨[], []⟩ none [none, some "  "]
        (fun _ => Except.ok []) false).state.documents = [] ∧
    (load_documents charEnc charDec ⟨[], []⟩ none [none, some "  "]
        (fun _ => Except.ok []) false).state.embeddings_cache
      = (cachePhase ⟨[], []⟩ none false).1.embeddings_cache ∧
    ∀ embedBatch2,
      load_documents charEnc charDec ⟨[], []⟩ none [none, some "  "]
        (fun _ => Except.ok []) false
      = load_documents charEnc charDec ⟨[], []⟩ none [none, some "  "]
        embedBatch2 false := by
  refine load_documents_no_docs charEnc charDec ⟨[], []⟩ none
    [none, some "  "] (fun _ => Except.ok []) false rfl ?_
  intro f hf
  simp only [List.mem_cons, List.mem_singleton] at hf
  rcases hf with rfl | rfl | hf
  · exact Or.inl rfl
  · exact Or.inr ⟨"  ", rfl, by decide⟩
  · cases hf

/-- Counterexample for C4 as stated: a readable but unusable cache record
(empty document list, non-empty embedding list) does not trigger a cache
hit, yet its embeddings are already assigned to the state when the
no-documents error is raised, so the in-memory state is not left empty. -/
theorem load_documents_state_not_empty_cex :
    (load_documents charEnc charDec ⟨[], []⟩ (some ⟨[], [[1]]⟩) [none]
        (fun _ => Except.error "unused") false).result
      = Except.error LoadError.noDocuments ∧
    (load_documents charEnc charDec ⟨[], []⟩ (some ⟨[], [[1]]⟩) [none]
        (fun _ => Except.error "unused") false).state.embeddings_cache
      = [[1]] ∧
    ([[(1 : ℚ)]] : List (List ℚ)) ≠ [] := by
  exact ⟨rfl, rfl, by decide⟩

/-! ### C8: batch failure aborts the load -/

/-- C8: if a batch of `_create_embeddings` fails, `load_documents` raises
the embedding-service error to its caller and never writes the cache
artifact, so no partial embedding set is persisted. -/
theorem load_documents_batch_failure (enc : String → List Nat)
    (dec : List Nat → String) (st : RAGState) (cacheRead : Option CacheRecord)
    (files : List (Option String))
    (embedBatch : List String → Except String (List (List ℚ)))
    (force_reload : Bool) (e : String)
    (hNoHit : (cachePhase st cacheRead force_reload).2 = false)
    (hDocs : collectDocs enc dec files ≠ [])
    (hFail : (createEmbeddings embedBatch (collectDocs enc dec files)).2
        = some e) :
    (load_documents enc dec st cacheRead files embedBatch force_reload).result
        = Except.error (LoadError.embeddingService e) ∧
    (load_documents enc dec st cacheRead files embedBatch
        force_reload).cacheWritten = none := by
  constructor <;> simp [load_documents, hNoHit, hDocs, hFail]

/-- Witness for C8: one readable file, a service that always fails. -/
theorem load_documents_batch_failure_witness :
    (load_documents charEnc charDec ⟨[], []⟩ none [some "ab"]
        (fun _ => Except.error "boom") false).result
      = Except.error (LoadError.embeddingService "boom") ∧
    (load_documents charEnc charDec ⟨[], []⟩ none [some "ab"]
        (fun _ => Except.error "boom") false).cacheWritten = none := by
  refine load_documents_batch_failure charEnc charDec ⟨[], []⟩ none
    [some "ab"] (fun _ => Except.error "boom") false "boom" rfl ?_ rfl
  decide

/-! ### C2: failure semantics of `answer_query` -/

/-- C2 (amended): a failing chat-completion call is caught at the top level
of `answer_query` and becomes the fixed apology string; a failing embedding
call, however, is caught inside `search` (which returns `[]`), so
`answer_query` then returns one of the three fixed no-context templates, not
the apology.  In both cases no exception propagates (`answer_query` is a
total function into `String`). -/
theorem answer_query_error_handling (sim : List ℚ → List ℚ → ℚ)
    (st : RAGState) (chatResp : List Message → Except String String)
    (query : String) (hist : List Message) (emsg : String)
    (embedResp : Except String (List ℚ)) :
    (answer_query sim st (Except.error emsg) chatResp query hist = greetingTemplate ∨
     answer_query sim st (Except.error emsg) chatResp query hist = identityTemplate ∨
     answer_query sim st (Except.error emsg) chatResp query hist = fallbackTemplate) ∧
    (search sim st embedResp 3 ≠ [] →
     (∀ msgs r, chatResp msgs ≠ Except.ok r) →
     answer_query sim st embedResp chatResp query hist = apologyTemplate) := by
  constructor
  · have hs : search sim st (Except.error emsg) 3 = [] := search_error_nil sim st emsg 3
    by_cases hg : isGreetingQuery query
    · exact Or.inl (by simp [answer_query, hs, hg])
    · by_cases hid : isIdentityQuery query
      · exact Or.inr (Or.inl (by simp [answer_query, hs, hg, hid]))
      · exact Or.inr (Or.inr (by simp [answer_query, hs, hg, hid]))
  · intro hne hchat
    have hm : ∀ msgs, ∃ e, chatResp msgs = Except.error e := by
      intro msgs
      cases h : chatResp msgs with
      | ok out => exact absurd h (hchat _ _)
      | error e => exact ⟨e, rfl⟩
    simp only [answer_query]
    rw [if_neg hne]
    obtain ⟨e, he⟩ := hm ([Message.mk "system" systemPersona] ++ pySliceNeg 5 hist
      ++ [Message.mk "user" (userContent query
            (contextBlock (search sim st embedResp 3)))])
    rw [he]

/-- Witness for C2: a store with one document; with a failing embedding call
the answer is one of the templates, with a successful embedding but failing
chat call it is the apology. -/
theorem answer_query_error_handling_witness :
    (answer_query (simConst 1) ⟨["a"], [[1]]⟩ (Except.error "x")
        (fun _ => Except.error "boom") "weather" [] = greetingTemplate ∨
     answer_query (simConst 1) ⟨["a"], [[1]]⟩ (Except.error "x")
        (fun _ => Except.error "boom") "weather" [] = identityTemplate ∨
     answer_query (simConst 1) ⟨["a"], [[1]]⟩ (Except.error "x")
        (fun _ => Except.error "boom") "weather" [] = fallbackTemplate) ∧
    answer_query (simConst 1) ⟨["a"], [[1]]⟩ (Except.ok [1])
        (fun _ => Except.error "boom") "weather" [] = apologyTemplate := by
  have h := answer_query_error_handling (simConst 1) ⟨["a"], [[1]]⟩
    (fun _ => Except.error "boom") "weather" [] "x" (Except.ok [1])
  exact ⟨h.1, h.2 (by decide) (fun msgs r h2 => nomatch h2)⟩

set_option maxRecDepth 10000 in
/-- Counterexample for C2 as stated: with a loaded store and a failing
embedding call, `answer_query` returns the generic fallback template, not
the apology string the claim requires. -/
theorem answer_query_embed_error_cex :
    answer_query (simConst 1) ⟨["a"], [[1]]⟩ (Except.error "x")
      (fun _ => Except.ok "model output") "weather" [] = fallbackTemplate ∧
    fallbackTemplate ≠ apologyTemplate := by
  exact ⟨by decide, by decide⟩

end RagSystem
